import Mathlib

/-
Verification of the OSRDIO digital I/O driver core (OsrDio.cpp / OsrDio.h).

The embedding below models the device-facing state of the driver:
a bank of named 32-bit registers (DIO_REGISTERS), the per-device runtime
state (OSRDIO_DEVICE_CONTEXT), and each event callback as a pure function
from its inputs to a result record.  Every hardware register write
performed during one invocation of a callback is recorded, in order, in a
write trace, so that claims about "exactly one write", "no writes", and
write ordering can be stated as facts about that trace.  32-bit values are
represented as natural numbers, with bitwise operations (Nat.land,
Nat.xor) used exactly where the C code uses `&` and `~` on ULONG values.
-/

namespace OsrDio

/-- Names of the memory-mapped device registers that the driver code
touches.  Registers that share a byte offset but are distinct read-side
and write-side hardware registers (ChangeDetectStatusRegister vs
DI_ChangeIrqRE_Register, and DI_ChangeDetectLatched_Register vs
DI_ChangeIrqFE_Register) are kept as distinct names, as in OsrDio.h. -/
inductive Reg where
  | Static_Digital_Input_Register
  | Static_Digital_Output_Register
  | DIO_Direction_Register
  | DI_FilterRegister_Port0and1
  | DI_FilterRegister_Port2and3
  | ChangeDetectStatusRegister
  | DI_ChangeIrqRE_Register
  | DI_ChangeIrqFE_Register
  | DI_ChangeDetectLatched_Register
  | GlobalInterruptEnable_Register
  | ChangeDetectIRQ_Register
  | Interrupt_Mask_Register
  | Volatile_Interrupt_Status_Register
  | Joint_Reset_Register
  deriving DecidableEq, Repr

/-- The register bank: current 32-bit value of each named register. -/
structure DIO_REGISTERS where
  Static_Digital_Input_Register : Nat
  Static_Digital_Output_Register : Nat
  DIO_Direction_Register : Nat
  DI_FilterRegister_Port0and1 : Nat
  DI_FilterRegister_Port2and3 : Nat
  ChangeDetectStatusRegister : Nat
  DI_ChangeIrqRE_Register : Nat
  DI_ChangeIrqFE_Register : Nat
  DI_ChangeDetectLatched_Register : Nat
  GlobalInterruptEnable_Register : Nat
  ChangeDetectIRQ_Register : Nat
  Interrupt_Mask_Register : Nat
  Volatile_Interrupt_Status_Register : Nat
  Joint_Reset_Register : Nat
  deriving DecidableEq, Repr

def getReg (regs : DIO_REGISTERS) : Reg → Nat
  | .Static_Digital_Input_Register => regs.Static_Digital_Input_Register
  | .Static_Digital_Output_Register => regs.Static_Digital_Output_Register
  | .DIO_Direction_Register => regs.DIO_Direction_Register
  | .DI_FilterRegister_Port0and1 => regs.DI_FilterRegister_Port0and1
  | .DI_FilterRegister_Port2and3 => regs.DI_FilterRegister_Port2and3
  | .ChangeDetectStatusRegister => regs.ChangeDetectStatusRegister
  | .DI_ChangeIrqRE_Register => regs.DI_ChangeIrqRE_Register
  | .DI_ChangeIrqFE_Register => regs.DI_ChangeIrqFE_Register
  | .DI_ChangeDetectLatched_Register => regs.DI_ChangeDetectLatched_Register
  | .GlobalInterruptEnable_Register => regs.GlobalInterruptEnable_Register
  | .ChangeDetectIRQ_Register => regs.ChangeDetectIRQ_Register
  | .Interrupt_Mask_Register => regs.Interrupt_Mask_Register
  | .Volatile_Interrupt_Status_Register => regs.Volatile_Interrupt_Status_Register
  | .Joint_Reset_Register => regs.Joint_Reset_Register

def setReg (regs : DIO_REGISTERS) (r : Reg) (v : Nat) : DIO_REGISTERS :=
  match r with
  | .Static_Digital_Input_Register => { regs with Static_Digital_Input_Register := v }
  | .Static_Digital_Output_Register => { regs with Static_Digital_Output_Register := v }
  | .DIO_Direction_Register => { regs with DIO_Direction_Register := v }
  | .DI_FilterRegister_Port0and1 => { regs with DI_FilterRegister_Port0and1 := v }
  | .DI_FilterRegister_Port2and3 => { regs with DI_FilterRegister_Port2and3 := v }
  | .ChangeDetectStatusRegister => { regs with ChangeDetectStatusRegister := v }
  | .DI_ChangeIrqRE_Register => { regs with DI_ChangeIrqRE_Register := v }
  | .DI_ChangeIrqFE_Register => { regs with DI_ChangeIrqFE_Register := v }
  | .DI_ChangeDetectLatched_Register => { regs with DI_ChangeDetectLatched_Register := v }
  | .GlobalInterruptEnable_Register => { regs with GlobalInterruptEnable_Register := v }
  | .ChangeDetectIRQ_Register => { regs with ChangeDetectIRQ_Register := v }
  | .Interrupt_Mask_Register => { regs with Interrupt_Mask_Register := v }
  | .Volatile_Interrupt_Status_Register => { regs with Volatile_Interrupt_Status_Register := v }
  | .Joint_Reset_Register => { regs with Joint_Reset_Register := v }

/-- The hardware state carried through one invocation of a driver routine:
the register bank plus the ordered trace of register writes issued so far
by that invocation (oldest first). -/
structure DioState where
  regs : DIO_REGISTERS
  writes : List (Reg × Nat)
  deriving DecidableEq, Repr

/-- Embedding of WRITE_REGISTER_ULONG: update the register bank and record
the write in the trace. -/
def WRITE_REGISTER_ULONG (s : DioState) (r : Reg) (v : Nat) : DioState :=
  { regs := setReg s.regs r v, writes := s.writes ++ [(r, v)] }

/-- Embedding of READ_REGISTER_ULONG: read the register bank. -/
def READ_REGISTER_ULONG (s : DioState) (r : Reg) : Nat :=
  getReg s.regs r

/-- BIT_NUMBER from OsrDio.h. -/
def BIT_NUMBER (x : Nat) : Nat := 2 ^ x

def Vol_Int : Nat := BIT_NUMBER 31

def ChangeDetectError : Nat := BIT_NUMBER 1
def ChangeDetectStatus : Nat := BIT_NUMBER 0

def ChangeDetectErrorIRQ_Acknowledge : Nat := BIT_NUMBER 1
def ChangeDetectIRQ_Acknowledge : Nat := BIT_NUMBER 0

def Filter_Large_All_Lines : Nat := 0xFFFFFFFF

/-- 32-bit bitwise complement: the embedding of `~` applied to a ULONG
value.  For v < 2^32 this is exactly the C complement. -/
def compl32 (v : Nat) : Nat := Nat.xor v 0xFFFFFFFF

/-- The NTSTATUS values this driver core can produce or observe. -/
inductive NTSTATUS where
  | STATUS_SUCCESS
  | STATUS_INVALID_DEVICE_STATE
  | STATUS_NONE_MAPPED
  | STATUS_INVALID_BUFFER_SIZE
  | STATUS_BUFFER_TOO_SMALL
  | STATUS_NO_MORE_ENTRIES
  | STATUS_INVALID_PARAMETER
  deriving DecidableEq, Repr

def NT_SUCCESS : NTSTATUS → Bool
  | .STATUS_SUCCESS => true
  | _ => false

/-- A WDFREQUEST as the dispatch layer hands it to this driver: an
identity plus the lengths of the caller's buffers. -/
structure WDFREQUEST where
  id : Nat
  InputBufferLength : Nat
  OutputBufferLength : Nat
  deriving DecidableEq, Repr

/-- OSRDIO_DEVICE_CONTEXT, restricted to the fields the modelled routines
read or write.  The PendingQueue is the manual WDF queue holding
wait-for-change requests, oldest first. -/
structure DEVICE_CONTEXT where
  OutputLineMask : Nat
  SavedOutputLineState : Nat
  LatchedInputLineState : Nat
  PendingQueue : List WDFREQUEST
  deriving DecidableEq, Repr

/-- Sizes (in bytes) of the IOCTL payload structures from OsrDio_IOCTL.h;
each holds a single ULONG. -/
def sizeof_OSRDIO_READ_DATA : Nat := 4
def sizeof_OSRDIO_WRITE_DATA : Nat := 4
def sizeof_OSRDIO_SET_OUTPUTS_DATA : Nat := 4
def sizeof_OSRDIO_CHANGE_DATA : Nat := 4

/-- WdfRequestRetrieveInputBuffer, per its documented contract for
METHOD_BUFFERED requests: fails with STATUS_BUFFER_TOO_SMALL exactly when
the request's input buffer is shorter than the required minimum size. -/
def WdfRequestRetrieveInputBuffer (request : WDFREQUEST) (minSize : Nat) : NTSTATUS :=
  if request.InputBufferLength < minSize then .STATUS_BUFFER_TOO_SMALL else .STATUS_SUCCESS

/-- WdfRequestRetrieveOutputBuffer, per its documented contract for
METHOD_BUFFERED requests: fails with STATUS_BUFFER_TOO_SMALL exactly when
the request's output buffer is shorter than the required minimum size. -/
def WdfRequestRetrieveOutputBuffer (request : WDFREQUEST) (minSize : Nat) : NTSTATUS :=
  if request.OutputBufferLength < minSize then .STATUS_BUFFER_TOO_SMALL else .STATUS_SUCCESS

/-- The IOCTL control codes of OsrDio_IOCTL.h; OTHER stands for any code
the switch statement does not recognise. -/
inductive IoctlCode where
  | IOCTL_OSRDIO_READ
  | IOCTL_OSRDIO_WRITE
  | IOCTL_OSRDIO_SET_OUTPUTS
  | IOCTL_OSRDIO_WAITFOR_CHANGE
  | OTHER
  deriving DecidableEq, Repr

/-- Result of one invocation of OsrDioEvtIoDeviceControl.  `completed`
records whether WdfRequestCompleteWithInformation was called on the
request (false exactly on the wait-for-change path that forwards the
request to the PendingQueue and returns with it in progress).
`readPayload` is the value stored into the caller's output buffer by
IOCTL_OSRDIO_READ, if any. -/
structure IoctlResult where
  status : NTSTATUS
  bytesReadorWritten : Nat
  completed : Bool
  devContext : DEVICE_CONTEXT
  st : DioState
  readPayload : Option Nat
  deriving DecidableEq, Repr

/-- DioUtilProgramLineDirectionAndChangeMasks: maximal input filters on
both filter registers, the direction register from OutputLineMask, then
rising-edge and falling-edge change masks from its complement. -/
def DioUtilProgramLineDirectionAndChangeMasks
    (DevContext : DEVICE_CONTEXT) (s : DioState) : DioState :=
  let s1 := WRITE_REGISTER_ULONG s .DI_FilterRegister_Port0and1 Filter_Large_All_Lines
  let s2 := WRITE_REGISTER_ULONG s1 .DI_FilterRegister_Port2and3 Filter_Large_All_Lines
  let s3 := WRITE_REGISTER_ULONG s2 .DIO_Direction_Register DevContext.OutputLineMask
  let s4 := WRITE_REGISTER_ULONG s3 .DI_ChangeIrqRE_Register (compl32 DevContext.OutputLineMask)
  WRITE_REGISTER_ULONG s4 .DI_ChangeIrqFE_Register (compl32 DevContext.OutputLineMask)

/-- OsrDioEvtIoDeviceControl.  `inputValue` is the ULONG carried in the
caller's input buffer (OutputLineState for WRITE, OutputLines for
SET_OUTPUTS); it is only consulted after the corresponding
WdfRequestRetrieveInputBuffer call succeeds.  Forwarding to the
PendingQueue (WdfRequestForwardToIoQueue) is modelled as always
succeeding, appending the request at the tail of the queue. -/
def OsrDioEvtIoDeviceControl
    (devContext : DEVICE_CONTEXT) (regs : DIO_REGISTERS)
    (Request : WDFREQUEST) (IoControlCode : IoctlCode)
    (inputValue : Nat) : IoctlResult :=
  let s0 : DioState := { regs := regs, writes := [] }
  match IoControlCode with
  | .IOCTL_OSRDIO_READ =>
    let status := WdfRequestRetrieveOutputBuffer Request sizeof_OSRDIO_READ_DATA
    if NT_SUCCESS status then
      let v := READ_REGISTER_ULONG s0 .Static_Digital_Input_Register
      { status := .STATUS_SUCCESS, bytesReadorWritten := sizeof_OSRDIO_READ_DATA,
        completed := true, devContext := devContext, st := s0, readPayload := some v }
    else
      { status := status, bytesReadorWritten := 0, completed := true,
        devContext := devContext, st := s0, readPayload := none }
  | .IOCTL_OSRDIO_WRITE =>
    if devContext.OutputLineMask = 0 then
      { status := .STATUS_INVALID_DEVICE_STATE, bytesReadorWritten := 0, completed := true,
        devContext := devContext, st := s0, readPayload := none }
    else
      let status := WdfRequestRetrieveInputBuffer Request sizeof_OSRDIO_WRITE_DATA
      if NT_SUCCESS status then
        let linesToAssert := Nat.land inputValue devContext.OutputLineMask
        let s1 := WRITE_REGISTER_ULONG s0 .Static_Digital_Output_Register linesToAssert
        { status := .STATUS_SUCCESS, bytesReadorWritten := sizeof_OSRDIO_WRITE_DATA,
          completed := true, devContext := devContext, st := s1, readPayload := none }
      else
        { status := status, bytesReadorWritten := 0, completed := true,
          devContext := devContext, st := s0, readPayload := none }
  | .IOCTL_OSRDIO_SET_OUTPUTS =>
    let status := WdfRequestRetrieveInputBuffer Request sizeof_OSRDIO_SET_OUTPUTS_DATA
    if NT_SUCCESS status then
      let devContext1 := { devContext with OutputLineMask := inputValue }
      let s1 := DioUtilProgramLineDirectionAndChangeMasks devContext1 s0
      { status := .STATUS_SUCCESS, bytesReadorWritten := sizeof_OSRDIO_SET_OUTPUTS_DATA,
        completed := true, devContext := devContext1, st := s1, readPayload := none }
    else
      { status := status, bytesReadorWritten := 0, completed := true,
        devContext := devContext, st := s0, readPayload := none }
  | .IOCTL_OSRDIO_WAITFOR_CHANGE =>
    if compl32 devContext.OutputLineMask = 0 then
      { status := .STATUS_NONE_MAPPED, bytesReadorWritten := 0, completed := true,
        devContext := devContext, st := s0, readPayload := none }
    else if Request.OutputBufferLength < sizeof_OSRDIO_CHANGE_DATA then
      { status := .STATUS_INVALID_BUFFER_SIZE, bytesReadorWritten := 0, completed := true,
        devContext := devContext, st := s0, readPayload := none }
    else
      let devContext1 :=
        { devContext with PendingQueue := devContext.PendingQueue ++ [Request] }
      { status := .STATUS_SUCCESS, bytesReadorWritten := 0, completed := false,
        devContext := devContext1, st := s0, readPayload := none }
  | .OTHER =>
    { status := .STATUS_INVALID_PARAMETER, bytesReadorWritten := 0, completed := true,
      devContext := devContext, st := s0, readPayload := none }

/-- Result of one invocation of OsrDioEvtInterruptIsr.  `dpcQueued` counts
the calls to WdfInterruptQueueDpcForIsr made during the invocation. -/
structure IsrResult where
  returnValue : Bool
  devContext : DEVICE_CONTEXT
  st : DioState
  dpcQueued : Nat
  deriving DecidableEq, Repr

/-- OsrDioEvtInterruptIsr: read the board-level volatile interrupt status;
if the Vol_Int bit is clear return FALSE with no further effect; otherwise
read the change-detect status register once, and from that single value
capture the latched lines and queue the DPC (when status is set and error
clear), then acknowledge the status condition and the error condition
independently. -/
def OsrDioEvtInterruptIsr (devContext : DEVICE_CONTEXT) (regs : DIO_REGISTERS) : IsrResult :=
  let s0 : DioState := { regs := regs, writes := [] }
  let interruptStatus := READ_REGISTER_ULONG s0 .Volatile_Interrupt_Status_Register
  if Nat.land interruptStatus Vol_Int = 0 then
    { returnValue := false, devContext := devContext, st := s0, dpcQueued := 0 }
  else
    let changeDetectReg := READ_REGISTER_ULONG s0 .ChangeDetectStatusRegister
    let captured :=
      if Nat.land changeDetectReg ChangeDetectStatus = 1 ∧
         Nat.land changeDetectReg ChangeDetectError = 0 then
        let lineState := READ_REGISTER_ULONG s0 .DI_ChangeDetectLatched_Register
        ({ devContext with LatchedInputLineState := lineState }, 1)
      else
        (devContext, 0)
    let s1 :=
      if Nat.land changeDetectReg ChangeDetectStatus ≠ 0 then
        WRITE_REGISTER_ULONG s0 .ChangeDetectIRQ_Register ChangeDetectIRQ_Acknowledge
      else s0
    let s2 :=
      if Nat.land changeDetectReg ChangeDetectError ≠ 0 then
        WRITE_REGISTER_ULONG s1 .ChangeDetectIRQ_Register ChangeDetectErrorIRQ_Acknowledge
      else s1
    { returnValue := true, devContext := captured.1, st := s2, dpcQueued := captured.2 }

/-- The completion a DPC run delivers for one request: the completed
request, the NTSTATUS and byte count passed to
WdfRequestCompleteWithInformation, and the latched value written into the
request's output buffer (none when the buffer could not be retrieved). -/
structure CompletionRecord where
  request : WDFREQUEST
  status : NTSTATUS
  information : Nat
  payload : Option Nat
  deriving DecidableEq, Repr

/-- Result of one invocation of OsrDioEvtInterruptDpc. -/
structure DpcResult where
  devContext : DEVICE_CONTEXT
  st : DioState
  completion : Option CompletionRecord
  deriving DecidableEq, Repr

/-- WdfIoQueueRetrieveNextRequest on the manual PendingQueue: FIFO pop;
STATUS_NO_MORE_ENTRIES when the queue is empty. -/
def WdfIoQueueRetrieveNextRequest :
    List WDFREQUEST → NTSTATUS × Option WDFREQUEST × List WDFREQUEST
  | [] => (.STATUS_NO_MORE_ENTRIES, none, [])
  | q :: rest => (.STATUS_SUCCESS, some q, rest)

/-- OsrDioEvtInterruptDpc: retrieve the next pending wait-for-change
request; if none, leave.  Otherwise retrieve its output buffer; on
success complete it with the current LatchedInputLineState and
sizeof(OSRDIO_CHANGE_DATA) bytes, otherwise complete it with the
buffer-retrieval status and zero bytes. -/
def OsrDioEvtInterruptDpc (devContext : DEVICE_CONTEXT) (regs : DIO_REGISTERS) : DpcResult :=
  let s0 : DioState := { regs := regs, writes := [] }
  let retrieved := WdfIoQueueRetrieveNextRequest devContext.PendingQueue
  match retrieved.2.1 with
  | none => { devContext := devContext, st := s0, completion := none }
  | some waitingRequest =>
    let devContext1 := { devContext with PendingQueue := retrieved.2.2 }
    let status := WdfRequestRetrieveOutputBuffer waitingRequest sizeof_OSRDIO_CHANGE_DATA
    if NT_SUCCESS status then
      { devContext := devContext1, st := s0,
        completion := some { request := waitingRequest, status := .STATUS_SUCCESS,
                             information := sizeof_OSRDIO_CHANGE_DATA,
                             payload := some devContext1.LatchedInputLineState } }
    else
      { devContext := devContext1, st := s0,
        completion := some { request := waitingRequest, status := status,
                             information := 0, payload := none } }

/-- OsrDioEvtDeviceD0Entry: restore SavedOutputLineState to the static
digital output register.  Returns the (unchanged) context and hardware
state. -/
def OsrDioEvtDeviceD0Entry (devContext : DEVICE_CONTEXT) (regs : DIO_REGISTERS) :
    DEVICE_CONTEXT × DioState :=
  let s0 : DioState := { regs := regs, writes := [] }
  (devContext,
   WRITE_REGISTER_ULONG s0 .Static_Digital_Output_Register devContext.SavedOutputLineState)

/-- OsrDioEvtDeviceD0Exit: read the static digital input register, mask
with OutputLineMask, store into SavedOutputLineState.  No register is
written. -/
def OsrDioEvtDeviceD0Exit (devContext : DEVICE_CONTEXT) (regs : DIO_REGISTERS) :
    DEVICE_CONTEXT × DioState :=
  let s0 : DioState := { regs := regs, writes := [] }
  let outputLineState := READ_REGISTER_ULONG s0 .Static_Digital_Input_Register
  let outputLineState1 := Nat.land outputLineState devContext.OutputLineMask
  ({ devContext with SavedOutputLineState := outputLineState1 }, s0)

/-
Concrete example values used by the witness and counterexample theorems.
-/

/-- A register bank with every register zero. -/
def regs0 : DIO_REGISTERS :=
  { Static_Digital_Input_Register := 0, Static_Digital_Output_Register := 0,
    DIO_Direction_Register := 0, DI_FilterRegister_Port0and1 := 0,
    DI_FilterRegister_Port2and3 := 0, ChangeDetectStatusRegister := 0,
    DI_ChangeIrqRE_Register := 0, DI_ChangeIrqFE_Register := 0,
    DI_ChangeDetectLatched_Register := 0, GlobalInterruptEnable_Register := 0,
    ChangeDetectIRQ_Register := 0, Interrupt_Mask_Register := 0,
    Volatile_Interrupt_Status_Register := 0, Joint_Reset_Register := 0 }

/-- A device context with all lines configured as inputs and an empty
pending queue. -/
def ctx0 : DEVICE_CONTEXT :=
  { OutputLineMask := 0, SavedOutputLineState := 0,
    LatchedInputLineState := 0, PendingQueue := [] }

/-- A register bank as the ISR would see it right after a line change on
this device: interrupt active, change-detect status set, no error, and a
concrete latched line state. -/
def regsChange : DIO_REGISTERS :=
  { regs0 with Volatile_Interrupt_Status_Register := 0x80000000,
               ChangeDetectStatusRegister := 1,
               DI_ChangeDetectLatched_Register := 0xCAFEBABE }

/-- A request with four-byte input and output buffers. -/
def req4 : WDFREQUEST := { id := 7, InputBufferLength := 4, OutputBufferLength := 4 }

/-- A request with empty buffers. -/
def reqEmpty : WDFREQUEST := { id := 8, InputBufferLength := 0, OutputBufferLength := 0 }

/-- Claim C1: when the ISR runs with the board-level volatile
interrupt-status read showing the device's interrupt-active bit set, and
the single change-detect status read has the status bit set and the error
bit clear, the ISR stores the latched-input-state register into
LatchedInputLineState, queues exactly one DPC, and issues exactly one
register write, the status-acknowledge bit to the change-detect IRQ
register. -/
theorem isr_change_detect_captures_and_acks
    (devContext : DEVICE_CONTEXT) (regs : DIO_REGISTERS)
    (hmine : Nat.land regs.Volatile_Interrupt_Status_Register Vol_Int ≠ 0)
    (hstatus : Nat.land regs.ChangeDetectStatusRegister ChangeDetectStatus = 1)
    (herror : Nat.land regs.ChangeDetectStatusRegister ChangeDetectError = 0) :
    (OsrDioEvtInterruptIsr devContext regs).devContext.LatchedInputLineState
        = regs.DI_ChangeDetectLatched_Register ∧
    (OsrDioEvtInterruptIsr devContext regs).dpcQueued = 1 ∧
    (OsrDioEvtInterruptIsr devContext regs).st.writes
        = [(Reg.ChangeDetectIRQ_Register, ChangeDetectIRQ_Acknowledge)] ∧
    (OsrDioEvtInterruptIsr devContext regs).returnValue = true := by
  simp [OsrDioEvtInterruptIsr, READ_REGISTER_ULONG, getReg,
        WRITE_REGISTER_ULONG, hmine, hstatus, herror]

/-- Witness for C1 at a concrete interrupt arrival. -/
theorem isr_change_detect_captures_and_acks_witness :
    (OsrDioEvtInterruptIsr ctx0 regsChange).devContext.LatchedInputLineState
        = regsChange.DI_ChangeDetectLatched_Register ∧
    (OsrDioEvtInterruptIsr ctx0 regsChange).dpcQueued = 1 ∧
    (OsrDioEvtInterruptIsr ctx0 regsChange).st.writes
        = [(Reg.ChangeDetectIRQ_Register, ChangeDetectIRQ_Acknowledge)] ∧
    (OsrDioEvtInterruptIsr ctx0 regsChange).returnValue = true :=
  isr_change_detect_captures_and_acks ctx0 regsChange
    (by decide) (by decide) (by decide)

/-- Claim C8: when the ISR runs with the device's interrupt-active bit
clear in the board-level volatile interrupt-status read, it returns FALSE
(NotMine), performs no register writes, queues no DPC, and leaves the
device context unchanged. -/
theorem isr_not_mine_no_effects
    (devContext : DEVICE_CONTEXT) (regs : DIO_REGISTERS)
    (h : Nat.land regs.Volatile_Interrupt_Status_Register Vol_Int = 0) :
    (OsrDioEvtInterruptIsr devContext regs).returnValue = false ∧
    (OsrDioEvtInterruptIsr devContext regs).st.writes = [] ∧
    (OsrDioEvtInterruptIsr devContext regs).st.regs = regs ∧
    (OsrDioEvtInterruptIsr devContext regs).dpcQueued = 0 ∧
    (OsrDioEvtInterruptIsr devContext regs).devContext = devContext := by
  simp [OsrDioEvtInterruptIsr, READ_REGISTER_ULONG, getReg, h]

/-- Witness for C8 at a concrete shared-interrupt arrival not caused by
this device. -/
theorem isr_not_mine_no_effects_witness :
    (OsrDioEvtInterruptIsr ctx0 regs0).returnValue = false ∧
    (OsrDioEvtInterruptIsr ctx0 regs0).st.writes = [] ∧
    (OsrDioEvtInterruptIsr ctx0 regs0).st.regs = regs0 ∧
    (OsrDioEvtInterruptIsr ctx0 regs0).dpcQueued = 0 ∧
    (OsrDioEvtInterruptIsr ctx0 regs0).devContext = ctx0 :=
  isr_not_mine_no_effects ctx0 regs0 (by decide)

/-- Claim C2: one run of the DPC never writes a register; against an empty
pending queue it completes nothing and changes nothing; against a
non-empty queue it removes exactly the oldest request and completes
exactly that one request, with the current LatchedInputLineState and a
full payload size when its output buffer can be retrieved, and with the
buffer-retrieval error and zero bytes when it cannot. -/
theorem dpc_drains_one_request
    (devContext : DEVICE_CONTEXT) (regs : DIO_REGISTERS) :
    (OsrDioEvtInterruptDpc devContext regs).st.writes = [] ∧
    (devContext.PendingQueue = [] →
       (OsrDioEvtInterruptDpc devContext regs).completion = none ∧
       (OsrDioEvtInterruptDpc devContext regs).devContext = devContext) ∧
    (∀ q rest, devContext.PendingQueue = q :: rest →
       (OsrDioEvtInterruptDpc devContext regs).devContext.PendingQueue = rest ∧
       (sizeof_OSRDIO_CHANGE_DATA ≤ q.OutputBufferLength →
          (OsrDioEvtInterruptDpc devContext regs).completion =
            some { request := q, status := .STATUS_SUCCESS,
                   information := sizeof_OSRDIO_CHANGE_DATA,
                   payload := some devContext.LatchedInputLineState }) ∧
       (q.OutputBufferLength < sizeof_OSRDIO_CHANGE_DATA →
          (OsrDioEvtInterruptDpc devContext regs).completion =
            some { request := q, status := .STATUS_BUFFER_TOO_SMALL,
                   information := 0, payload := none })) := by
  rcases hq : devContext.PendingQueue with _ | ⟨q, rest⟩
  · simp [OsrDioEvtInterruptDpc, WdfIoQueueRetrieveNextRequest, hq]
  · refine ⟨?_, ?_, ?_⟩
    · simp only [OsrDioEvtInterruptDpc, WdfIoQueueRetrieveNextRequest, hq]
      split <;> rfl
    · intro h
      exact absurd h (List.cons_ne_nil q rest)
    · intro q1 rest1 h1
      injection h1 with hq1 hrest1
      subst hq1
      subst hrest1
      refine ⟨?_, ?_, ?_⟩
      · simp only [OsrDioEvtInterruptDpc, WdfIoQueueRetrieveNextRequest, hq]
        split <;> rfl
      · intro hbuf
        simp [OsrDioEvtInterruptDpc, WdfIoQueueRetrieveNextRequest, hq,
              WdfRequestRetrieveOutputBuffer, NT_SUCCESS, Nat.not_lt.mpr hbuf]
      · intro hbuf
        simp [OsrDioEvtInterruptDpc, WdfIoQueueRetrieveNextRequest, hq,
              WdfRequestRetrieveOutputBuffer, NT_SUCCESS, hbuf]

/-- Witness for C2: a queue holding one request with a sufficient buffer
is drained and completed with the latched value; a second concrete run
against an empty queue is a no-op. -/
theorem dpc_drains_one_request_witness :
    (OsrDioEvtInterruptDpc
        { ctx0 with LatchedInputLineState := 0xCAFEBABE,
                    PendingQueue := [req4] } regs0).completion =
      some { request := req4, status := .STATUS_SUCCESS,
             information := sizeof_OSRDIO_CHANGE_DATA,
             payload := some 0xCAFEBABE } ∧
    (OsrDioEvtInterruptDpc ctx0 regs0).completion = none := by
  constructor
  · exact ((dpc_drains_one_request
      { ctx0 with LatchedInputLineState := 0xCAFEBABE, PendingQueue := [req4] }
      regs0).2.2 req4 [] rfl).2.1 (by decide)
  · exact ((dpc_drains_one_request ctx0 regs0).2.1 rfl).1

/-- Claim C7: a power-down transition immediately followed by a power-up
transition leaves the output register holding the value read from the
input register at power-down masked with the OutputLineMask in effect at
power-down; power-down stores that masked value in SavedOutputLineState
and power-up writes SavedOutputLineState to the output register. -/
theorem power_cycle_restores_masked_outputs
    (devContext : DEVICE_CONTEXT) (regs : DIO_REGISTERS) :
    (OsrDioEvtDeviceD0Exit devContext regs).1.SavedOutputLineState
        = Nat.land regs.Static_Digital_Input_Register devContext.OutputLineMask ∧
    (OsrDioEvtDeviceD0Exit devContext regs).2.writes = [] ∧
    (OsrDioEvtDeviceD0Entry (OsrDioEvtDeviceD0Exit devContext regs).1
        (OsrDioEvtDeviceD0Exit devContext regs).2.regs).2.regs.Static_Digital_Output_Register
        = Nat.land regs.Static_Digital_Input_Register devContext.OutputLineMask ∧
    (OsrDioEvtDeviceD0Entry (OsrDioEvtDeviceD0Exit devContext regs).1
        (OsrDioEvtDeviceD0Exit devContext regs).2.regs).2.writes
        = [(Reg.Static_Digital_Output_Register,
            Nat.land regs.Static_Digital_Input_Register devContext.OutputLineMask)] := by
  simp [OsrDioEvtDeviceD0Exit, OsrDioEvtDeviceD0Entry, READ_REGISTER_ULONG,
        WRITE_REGISTER_ULONG, getReg, setReg]

/-- A device context with the low four lines configured as outputs. -/
def ctxLow4 : DEVICE_CONTEXT := { ctx0 with OutputLineMask := 0xF }

/-- A device context with every line configured as output. -/
def ctxAllOut : DEVICE_CONTEXT := { ctx0 with OutputLineMask := 0xFFFFFFFF }

/-- Claim C3: with a non-zero OutputLineMask and a retrievable input
buffer, the write-outputs operation issues exactly one register write,
storing exactly requested-AND-OutputLineMask into the static digital
output register; any bit clear in OutputLineMask is clear in the written
value, whatever the requested value. -/
theorem write_outputs_masked
    (devContext : DEVICE_CONTEXT) (regs : DIO_REGISTERS) (Request : WDFREQUEST) (v : Nat)
    (hmask : devContext.OutputLineMask ≠ 0)
    (hbuf : sizeof_OSRDIO_WRITE_DATA ≤ Request.InputBufferLength) :
    (OsrDioEvtIoDeviceControl devContext regs Request .IOCTL_OSRDIO_WRITE v).st.writes
        = [(Reg.Static_Digital_Output_Register, Nat.land v devContext.OutputLineMask)] ∧
    (OsrDioEvtIoDeviceControl devContext regs Request
        .IOCTL_OSRDIO_WRITE v).st.regs.Static_Digital_Output_Register
        = Nat.land v devContext.OutputLineMask ∧
    (OsrDioEvtIoDeviceControl devContext regs Request .IOCTL_OSRDIO_WRITE v).status
        = .STATUS_SUCCESS ∧
    (∀ i, Nat.testBit devContext.OutputLineMask i = false →
       Nat.testBit (Nat.land v devContext.OutputLineMask) i = false) := by
  refine ⟨?_, ?_, ?_, ?_⟩
  all_goals
    try simp [OsrDioEvtIoDeviceControl, hmask, WdfRequestRetrieveInputBuffer,
              NT_SUCCESS, Nat.not_lt.mpr hbuf, WRITE_REGISTER_ULONG, setReg,
              READ_REGISTER_ULONG]
  intro i hi
  show Nat.testBit (v &&& devContext.OutputLineMask) i = false
  rw [Nat.testBit_land, hi, Bool.and_false]

/-- Witness for C3: requesting 0xFF with only the low four lines
configured as outputs writes exactly 0xF. -/
theorem write_outputs_masked_witness :
    (OsrDioEvtIoDeviceControl ctxLow4 regs0 req4 .IOCTL_OSRDIO_WRITE 0xFF).st.writes
        = [(Reg.Static_Digital_Output_Register, Nat.land 0xFF ctxLow4.OutputLineMask)] ∧
    (OsrDioEvtIoDeviceControl ctxLow4 regs0 req4
        .IOCTL_OSRDIO_WRITE 0xFF).st.regs.Static_Digital_Output_Register
        = Nat.land 0xFF ctxLow4.OutputLineMask ∧
    (OsrDioEvtIoDeviceControl ctxLow4 regs0 req4 .IOCTL_OSRDIO_WRITE 0xFF).status
        = .STATUS_SUCCESS ∧
    (∀ i, Nat.testBit ctxLow4.OutputLineMask i = false →
       Nat.testBit (Nat.land 0xFF ctxLow4.OutputLineMask) i = false) :=
  write_outputs_masked ctxLow4 regs0 req4 0xFF (by decide) (by decide)

/-- Claim C4: the write-outputs operation with OutputLineMask zero fails
with STATUS_INVALID_DEVICE_STATE, reports zero bytes, performs no
register write, and leaves registers and device context unchanged. -/
theorem write_outputs_rejected_no_output_lines
    (devContext : DEVICE_CONTEXT) (regs : DIO_REGISTERS) (Request : WDFREQUEST) (v : Nat)
    (hmask : devContext.OutputLineMask = 0) :
    (OsrDioEvtIoDeviceControl devContext regs Request .IOCTL_OSRDIO_WRITE v).status
        = .STATUS_INVALID_DEVICE_STATE ∧
    (OsrDioEvtIoDeviceControl devContext regs Request .IOCTL_OSRDIO_WRITE v).bytesReadorWritten
        = 0 ∧
    (OsrDioEvtIoDeviceControl devContext regs Request .IOCTL_OSRDIO_WRITE v).st.writes = [] ∧
    (OsrDioEvtIoDeviceControl devContext regs Request .IOCTL_OSRDIO_WRITE v).st.regs = regs ∧
    (OsrDioEvtIoDeviceControl devContext regs Request .IOCTL_OSRDIO_WRITE v).devContext
        = devContext := by
  simp [OsrDioEvtIoDeviceControl, hmask]

/-- Witness for C4 at the all-inputs context. -/
theorem write_outputs_rejected_no_output_lines_witness :
    (OsrDioEvtIoDeviceControl ctx0 regs0 req4 .IOCTL_OSRDIO_WRITE 0xFF).status
        = .STATUS_INVALID_DEVICE_STATE ∧
    (OsrDioEvtIoDeviceControl ctx0 regs0 req4 .IOCTL_OSRDIO_WRITE 0xFF).bytesReadorWritten
        = 0 ∧
    (OsrDioEvtIoDeviceControl ctx0 regs0 req4 .IOCTL_OSRDIO_WRITE 0xFF).st.writes = [] ∧
    (OsrDioEvtIoDeviceControl ctx0 regs0 req4 .IOCTL_OSRDIO_WRITE 0xFF).st.regs = regs0 ∧
    (OsrDioEvtIoDeviceControl ctx0 regs0 req4 .IOCTL_OSRDIO_WRITE 0xFF).devContext = ctx0 :=
  write_outputs_rejected_no_output_lines ctx0 regs0 req4 0xFF rfl

/-- Claim C5: set-output-mask followed by the change-detect arming step
(a single SET_OUTPUTS dispatch, which stores the mask and calls
DioUtilProgramLineDirectionAndChangeMasks) issues its register writes in
order: the two filter registers, then the direction register with the
mask, then the rising-edge and falling-edge change masks with the 32-bit
complement of the mask, so the direction write precedes both edge-mask
writes. -/
theorem set_outputs_programs_direction_then_edges
    (devContext : DEVICE_CONTEXT) (regs : DIO_REGISTERS) (Request : WDFREQUEST) (m : Nat)
    (hbuf : sizeof_OSRDIO_SET_OUTPUTS_DATA ≤ Request.InputBufferLength) :
    (OsrDioEvtIoDeviceControl devContext regs Request
        .IOCTL_OSRDIO_SET_OUTPUTS m).devContext.OutputLineMask = m ∧
    (OsrDioEvtIoDeviceControl devContext regs Request .IOCTL_OSRDIO_SET_OUTPUTS m).st.writes
        = [(Reg.DI_FilterRegister_Port0and1, Filter_Large_All_Lines),
           (Reg.DI_FilterRegister_Port2and3, Filter_Large_All_Lines),
           (Reg.DIO_Direction_Register, m),
           (Reg.DI_ChangeIrqRE_Register, compl32 m),
           (Reg.DI_ChangeIrqFE_Register, compl32 m)] ∧
    (OsrDioEvtIoDeviceControl devContext regs Request
        .IOCTL_OSRDIO_SET_OUTPUTS m).st.regs.DIO_Direction_Register = m ∧
    (OsrDioEvtIoDeviceControl devContext regs Request
        .IOCTL_OSRDIO_SET_OUTPUTS m).st.regs.DI_ChangeIrqRE_Register = compl32 m ∧
    (OsrDioEvtIoDeviceControl devContext regs Request
        .IOCTL_OSRDIO_SET_OUTPUTS m).st.regs.DI_ChangeIrqFE_Register = compl32 m := by
  simp [OsrDioEvtIoDeviceControl, WdfRequestRetrieveInputBuffer, NT_SUCCESS,
        Nat.not_lt.mpr hbuf, DioUtilProgramLineDirectionAndChangeMasks,
        WRITE_REGISTER_ULONG, setReg]

/-- Witness for C5 at mask 0xF: the rising- and falling-edge registers
receive 0xFFFFFFF0 after the direction register receives 0xF. -/
theorem set_outputs_programs_direction_then_edges_witness :
    (OsrDioEvtIoDeviceControl ctx0 regs0 req4
        .IOCTL_OSRDIO_SET_OUTPUTS 0xF).devContext.OutputLineMask = 0xF ∧
    (OsrDioEvtIoDeviceControl ctx0 regs0 req4 .IOCTL_OSRDIO_SET_OUTPUTS 0xF).st.writes
        = [(Reg.DI_FilterRegister_Port0and1, Filter_Large_All_Lines),
           (Reg.DI_FilterRegister_Port2and3, Filter_Large_All_Lines),
           (Reg.DIO_Direction_Register, 0xF),
           (Reg.DI_ChangeIrqRE_Register, compl32 0xF),
           (Reg.DI_ChangeIrqFE_Register, compl32 0xF)] ∧
    (OsrDioEvtIoDeviceControl ctx0 regs0 req4
        .IOCTL_OSRDIO_SET_OUTPUTS 0xF).st.regs.DIO_Direction_Register = 0xF ∧
    (OsrDioEvtIoDeviceControl ctx0 regs0 req4
        .IOCTL_OSRDIO_SET_OUTPUTS 0xF).st.regs.DI_ChangeIrqRE_Register = compl32 0xF ∧
    (OsrDioEvtIoDeviceControl ctx0 regs0 req4
        .IOCTL_OSRDIO_SET_OUTPUTS 0xF).st.regs.DI_ChangeIrqFE_Register = compl32 0xF :=
  set_outputs_programs_direction_then_edges ctx0 regs0 req4 0xF (by decide)

/-- Claim C6: the wait-for-change enqueue fails with STATUS_NONE_MAPPED
(NoInputLines) precisely when OutputLineMask is 0xFFFFFFFF; for any other
mask, a request whose output buffer holds at least one latched-state
value is appended to the PendingQueue and left in progress
(not completed). -/
theorem waitfor_nolines_iff_all_outputs
    (devContext : DEVICE_CONTEXT) (regs : DIO_REGISTERS) (Request : WDFREQUEST) (v : Nat) :
    ((OsrDioEvtIoDeviceControl devContext regs Request
        .IOCTL_OSRDIO_WAITFOR_CHANGE v).status = .STATUS_NONE_MAPPED
       ↔ devContext.OutputLineMask = 0xFFFFFFFF) ∧
    (devContext.OutputLineMask ≠ 0xFFFFFFFF →
     sizeof_OSRDIO_CHANGE_DATA ≤ Request.OutputBufferLength →
       (OsrDioEvtIoDeviceControl devContext regs Request
           .IOCTL_OSRDIO_WAITFOR_CHANGE v).status = .STATUS_SUCCESS ∧
       (OsrDioEvtIoDeviceControl devContext regs Request
           .IOCTL_OSRDIO_WAITFOR_CHANGE v).completed = false ∧
       (OsrDioEvtIoDeviceControl devContext regs Request
           .IOCTL_OSRDIO_WAITFOR_CHANGE v).devContext.PendingQueue
           = devContext.PendingQueue ++ [Request]) := by
  have hc : (compl32 devContext.OutputLineMask = 0)
      ↔ devContext.OutputLineMask = 0xFFFFFFFF := by
    unfold compl32
    exact Nat.xor_eq_zero
  constructor
  · by_cases h1 : compl32 devContext.OutputLineMask = 0
    · have h2 := hc.mp h1
      have hx : Nat.xor 4294967295 4294967295 = 0 := by decide
      simp [OsrDioEvtIoDeviceControl, compl32, h2, hx]
    · have h2 : devContext.OutputLineMask ≠ 0xFFFFFFFF := fun h => h1 (hc.mpr h)
      simp only [OsrDioEvtIoDeviceControl, if_neg h1]
      split <;> simp [h2]
  · intro hm hbuf
    have h1 : ¬ compl32 devContext.OutputLineMask = 0 := fun h => hm (hc.mp h)
    simp [OsrDioEvtIoDeviceControl, h1, Nat.not_lt.mpr hbuf]

/-- Witness for C6: with every line an output the enqueue fails with
STATUS_NONE_MAPPED, and with all lines inputs a four-byte request is
queued and left in progress. -/
theorem waitfor_nolines_iff_all_outputs_witness :
    ((OsrDioEvtIoDeviceControl ctxAllOut regs0 req4
        .IOCTL_OSRDIO_WAITFOR_CHANGE 0).status = .STATUS_NONE_MAPPED
       ↔ ctxAllOut.OutputLineMask = 0xFFFFFFFF) ∧
    (OsrDioEvtIoDeviceControl ctx0 regs0 req4
        .IOCTL_OSRDIO_WAITFOR_CHANGE 0).status = .STATUS_SUCCESS ∧
    (OsrDioEvtIoDeviceControl ctx0 regs0 req4
        .IOCTL_OSRDIO_WAITFOR_CHANGE 0).completed = false ∧
    (OsrDioEvtIoDeviceControl ctx0 regs0 req4
        .IOCTL_OSRDIO_WAITFOR_CHANGE 0).devContext.PendingQueue
        = ctx0.PendingQueue ++ [req4] :=
  ⟨(waitfor_nolines_iff_all_outputs ctxAllOut regs0 req4 0).1,
   (waitfor_nolines_iff_all_outputs ctx0 regs0 req4 0).2 (by decide) (by decide)⟩

/-- Counterexample to claim C9 as stated: with the mapping established
but a zero-length output buffer, the read-line-state operation does not
succeed; it fails with the buffer-retrieval error and returns no
payload. -/
theorem read_line_state_small_buffer_counterexample :
    (OsrDioEvtIoDeviceControl ctx0 regs0 reqEmpty .IOCTL_OSRDIO_READ 0).status
        ≠ .STATUS_SUCCESS ∧
    (OsrDioEvtIoDeviceControl ctx0 regs0 reqEmpty .IOCTL_OSRDIO_READ 0).status
        = .STATUS_BUFFER_TOO_SMALL ∧
    (OsrDioEvtIoDeviceControl ctx0 regs0 reqEmpty .IOCTL_OSRDIO_READ 0).readPayload
        = none := by decide

/-- Claim C9 as amended: whenever the caller's output buffer can hold one
OSRDIO_READ_DATA value, the read-line-state operation succeeds and
returns the raw current value of the input register; with a smaller
buffer it fails with the buffer-retrieval error and zero bytes; in
neither case does it write a register. -/
theorem read_line_state_spec
    (devContext : DEVICE_CONTEXT) (regs : DIO_REGISTERS) (Request : WDFREQUEST) (v : Nat) :
    (sizeof_OSRDIO_READ_DATA ≤ Request.OutputBufferLength →
       (OsrDioEvtIoDeviceControl devContext regs Request .IOCTL_OSRDIO_READ v).status
           = .STATUS_SUCCESS ∧
       (OsrDioEvtIoDeviceControl devContext regs Request .IOCTL_OSRDIO_READ v).readPayload
           = some regs.Static_Digital_Input_Register ∧
       (OsrDioEvtIoDeviceControl devContext regs Request
           .IOCTL_OSRDIO_READ v).bytesReadorWritten = sizeof_OSRDIO_READ_DATA) ∧
    (Request.OutputBufferLength < sizeof_OSRDIO_READ_DATA →
       (OsrDioEvtIoDeviceControl devContext regs Request .IOCTL_OSRDIO_READ v).status
           = .STATUS_BUFFER_TOO_SMALL ∧
       (OsrDioEvtIoDeviceControl devContext regs Request .IOCTL_OSRDIO_READ v).readPayload
           = none ∧
       (OsrDioEvtIoDeviceControl devContext regs Request
           .IOCTL_OSRDIO_READ v).bytesReadorWritten = 0) ∧
    (OsrDioEvtIoDeviceControl devContext regs Request .IOCTL_OSRDIO_READ v).st.writes
        = [] := by
  refine ⟨?_, ?_, ?_⟩
  · intro hbuf
    simp [OsrDioEvtIoDeviceControl, WdfRequestRetrieveOutputBuffer, NT_SUCCESS,
          Nat.not_lt.mpr hbuf, READ_REGISTER_ULONG, getReg]
  · intro hbuf
    simp [OsrDioEvtIoDeviceControl, WdfRequestRetrieveOutputBuffer, NT_SUCCESS, hbuf]
  · simp only [OsrDioEvtIoDeviceControl]
    split <;> rfl

/-- Witness for the amended C9 at a four-byte buffer and a concrete input
register value. -/
theorem read_line_state_spec_witness :
    (OsrDioEvtIoDeviceControl ctx0
        { regs0 with Static_Digital_Input_Register := 0x12345 } req4
        .IOCTL_OSRDIO_READ 0).status = .STATUS_SUCCESS ∧
    (OsrDioEvtIoDeviceControl ctx0
        { regs0 with Static_Digital_Input_Register := 0x12345 } req4
        .IOCTL_OSRDIO_READ 0).readPayload
        = some ({ regs0 with
                  Static_Digital_Input_Register :=
                    0x12345 } : DIO_REGISTERS).Static_Digital_Input_Register ∧
    (OsrDioEvtIoDeviceControl ctx0
        { regs0 with Static_Digital_Input_Register := 0x12345 } req4
        .IOCTL_OSRDIO_READ 0).bytesReadorWritten = sizeof_OSRDIO_READ_DATA :=
  (read_line_state_spec ctx0
    { regs0 with Static_Digital_Input_Register := 0x12345 } req4 0).1 (by decide)

/-- Claim C10: for the wait-for-change enqueue, the no-input-lines check
runs before the buffer-size check, so with OutputLineMask 0xFFFFFFFF and
a too-small output buffer the reported failure is STATUS_NONE_MAPPED; and
every failing enqueue leaves the device context (including the
PendingQueue), the registers, and the write trace untouched, completing
the request immediately. -/
theorem waitfor_check_order_and_frame
    (devContext : DEVICE_CONTEXT) (regs : DIO_REGISTERS) (Request : WDFREQUEST) (v : Nat) :
    (devContext.OutputLineMask = 0xFFFFFFFF →
     Request.OutputBufferLength < sizeof_OSRDIO_CHANGE_DATA →
       (OsrDioEvtIoDeviceControl devContext regs Request
           .IOCTL_OSRDIO_WAITFOR_CHANGE v).status = .STATUS_NONE_MAPPED ∧
       (OsrDioEvtIoDeviceControl devContext regs Request
           .IOCTL_OSRDIO_WAITFOR_CHANGE v).bytesReadorWritten = 0) ∧
    (NT_SUCCESS (OsrDioEvtIoDeviceControl devContext regs Request
        .IOCTL_OSRDIO_WAITFOR_CHANGE v).status = false →
       (OsrDioEvtIoDeviceControl devContext regs Request
           .IOCTL_OSRDIO_WAITFOR_CHANGE v).devContext = devContext ∧
       (OsrDioEvtIoDeviceControl devContext regs Request
           .IOCTL_OSRDIO_WAITFOR_CHANGE v).st.writes = [] ∧
       (OsrDioEvtIoDeviceControl devContext regs Request
           .IOCTL_OSRDIO_WAITFOR_CHANGE v).st.regs = regs ∧
       (OsrDioEvtIoDeviceControl devContext regs Request
           .IOCTL_OSRDIO_WAITFOR_CHANGE v).completed = true) := by
  constructor
  · intro hm hbuf
    have h1 : compl32 devContext.OutputLineMask = 0 := by
      unfold compl32
      exact Nat.xor_eq_zero.mpr hm
    simp [OsrDioEvtIoDeviceControl, h1]
  · intro hfail
    by_cases h1 : compl32 devContext.OutputLineMask = 0
    · simp [OsrDioEvtIoDeviceControl, h1]
    · by_cases h2 : Request.OutputBufferLength < sizeof_OSRDIO_CHANGE_DATA
      · simp [OsrDioEvtIoDeviceControl, h1, h2]
      · exfalso
        simp [OsrDioEvtIoDeviceControl, h1, h2, NT_SUCCESS] at hfail

/-- Witness for C10: all lines outputs and an empty output buffer yields
STATUS_NONE_MAPPED, zero bytes, and no state change. -/
theorem waitfor_check_order_and_frame_witness :
    ((OsrDioEvtIoDeviceControl ctxAllOut regs0 reqEmpty
        .IOCTL_OSRDIO_WAITFOR_CHANGE 0).status = .STATUS_NONE_MAPPED ∧
     (OsrDioEvtIoDeviceControl ctxAllOut regs0 reqEmpty
        .IOCTL_OSRDIO_WAITFOR_CHANGE 0).bytesReadorWritten = 0) ∧
    ((OsrDioEvtIoDeviceControl ctxAllOut regs0 reqEmpty
        .IOCTL_OSRDIO_WAITFOR_CHANGE 0).devContext = ctxAllOut ∧
     (OsrDioEvtIoDeviceControl ctxAllOut regs0 reqEmpty
        .IOCTL_OSRDIO_WAITFOR_CHANGE 0).st.writes = [] ∧
     (OsrDioEvtIoDeviceControl ctxAllOut regs0 reqEmpty
        .IOCTL_OSRDIO_WAITFOR_CHANGE 0).st.regs = regs0 ∧
     (OsrDioEvtIoDeviceControl ctxAllOut regs0 reqEmpty
        .IOCTL_OSRDIO_WAITFOR_CHANGE 0).completed = true) :=
  ⟨(waitfor_check_order_and_frame ctxAllOut regs0 reqEmpty 0).1 (by decide) (by decide),
   (waitfor_check_order_and_frame ctxAllOut regs0 reqEmpty 0).2 (by decide)⟩

end OsrDio
